import Mathlib

/-!
Formalisation of the protocol transport layer of `sphero_base` (`sphero.py`):
checksum, outgoing frame encoding, the byte-stream reader, incoming response
decoding, the high-level roll/off/stop state, and the post-connect
channel-cleaning loop.  Byte streams are modelled as lists of natural numbers
(each a Python `bytes` element, 0..255); the Bluetooth socket is modelled as
the list of chunks its successive `recv` calls deliver, where an empty chunk
signals closure.  Python exceptions become explicit result constructors.
-/

/-- Device and command identifiers, as in the source module. -/
def DID_CORE : Nat := 0x00

def DID_SPHERO : Nat := 0x02

def CMD_PING : Nat := 0x01

def CMD_SET_RGB : Nat := 0x20

def CMD_ROLL : Nat := 0x30

/-- Source: `gen_checksum(*msg_bytes): return ~sum(msg_bytes) % 256`.
Python `~s` is `-s - 1`, and Python `%` with a positive modulus is flooring
modulus, i.e. `Int.emod`; the result lies in `[0, 255]` and is returned as a
`Nat`. -/
def gen_checksum (msg_bytes : List Nat) : Nat :=
  ((-(msg_bytes.sum : Int) - 1) % 256).toNat

/-- Source: class `BoundCounter(start=0, boundary=0x0100)`, fields `n`, `mod`. -/
structure BoundCounter where
  n : Nat
  mod : Nat
deriving DecidableEq

/-- Source: `BoundCounter.next`: `self.n = (self.n + 1) % self.mod; return self.n`.
Returns the new value together with the updated counter. -/
def BoundCounter.next (c : BoundCounter) : Nat × BoundCounter :=
  let n := (c.n + 1) % c.mod
  (n, { c with n := n })

/-- The counter a fresh session starts with: `BoundCounter()` = start 0, mod 256. -/
def BoundCounter.start : BoundCounter := { n := 0, mod := 0x0100 }

/-- Source: `SpheroRaw.send_msg(did, cid, data=None, answer=False, reset=True,
seq=None)`.  Builds the outgoing wire frame
`bytes([sop1, sop2, did, cid, seq, dlen]) + data + bytes([chk])` and threads the
sequence counter (`self.seq`), which is consumed only when `answer` is true and
no explicit `seq` was supplied.  The `data=None` default is the empty payload. -/
def send_msg (seqc : BoundCounter) (did cid : Nat) (data : List Nat)
    (answer : Bool) (reset : Bool) (seq0 : Option Nat) :
    List Nat × BoundCounter :=
  let sop1 := 0xff
  let sop2 := 0xfc
  let sop2 := if reset then sop2 ||| 0x02 else sop2
  let sop2 := if answer then sop2 ||| 0x01 else sop2
  let seqAndCounter :=
    match answer, seq0 with
    | true, none => seqc.next
    | _, some s => (s, seqc)
    | false, none => (0x00, seqc)
  let seq := seqAndCounter.1
  let seqc := seqAndCounter.2
  let dlen := data.length + 1
  let chk := gen_checksum ([did, cid, seq, dlen] ++ data)
  ([sop1, sop2, did, cid, seq, dlen] ++ data ++ [chk], seqc)

/-- Source: `send_set_rgb(r, g, b, save=False)`:
`data = bytes([r, g, b, 0x01 if save else 0x00])`, then
`send_msg(DID_SPHERO, CMD_SET_RGB, data)` with default `answer=False`,
`reset=True`, `seq=None`. -/
def send_set_rgb (seqc : BoundCounter) (r g b : Nat) (save : Bool) :
    List Nat × BoundCounter :=
  let data := [r, g, b, if save then 0x01 else 0x00]
  send_msg seqc DID_SPHERO CMD_SET_RGB data false true none

/-- Big-endian 16-bit packing, the `H` of `struct.pack('!BHB', ...)`. -/
def pack_u16_be (v : Nat) : List Nat := [v / 256, v % 256]

/-- Source: `send_roll(speed, heading, state=0x01)`:
`data = struct.pack('!BHB', speed, heading % 360, state)`, then
`send_msg(DID_SPHERO, CMD_ROLL, data)` with default flags.  `heading` is a
Python int, so it is an `Int` here; `heading % 360` is flooring modulus and is
non-negative, hence the `toNat`. -/
def send_roll (seqc : BoundCounter) (speed : Nat) (heading : Int) (state : Nat) :
    List Nat × BoundCounter :=
  let data := [speed] ++ pack_u16_be ((heading % 360).toNat) ++ [state]
  send_msg seqc DID_SPHERO CMD_ROLL data false true none

/-- The connection state visible to `Connection.read`: the pending-bytes buffer
`self._buffer`, and the transport modelled as the list of chunks that successive
`socket.recv` calls deliver (an empty chunk means the peer closed the
connection). -/
structure Conn where
  buffer : List Nat
  chunks : List (List Nat)
deriving DecidableEq

/-- Outcome of `Connection.read`.  In the source, the closure branch runs
`self.error('Connection closed')`, but class `Connection` defines no method
`error`, so Python raises `AttributeError` there; at that point `self._buffer`
still holds every byte delivered so far.  `wouldBlock` stands for a `recv`
issued after the modelled chunk list is exhausted: the real blocking socket
would wait forever. -/
inductive ReadResult where
  | ok (data : List Nat) (conn : Conn)
  | attrError (conn : Conn)
  | wouldBlock
deriving DecidableEq

/-- The `while to_read > 0` loop of `Connection.read`.  `to_read` is clamped at
0 by `Nat` subtraction; Python lets it go negative, but the loop guard only
tests positivity, so the control flow is identical.  On loop exit the buffer is
split: `data, self._buffer = self._buffer[:size], self._buffer[size:]`. -/
def readGo (size : Nat) (buffer : List Nat) (chunks : List (List Nat))
    (toRead : Nat) : ReadResult :=
  if toRead = 0 then
    .ok (buffer.take size) ⟨buffer.drop size, chunks⟩
  else
    match chunks with
    | [] => .wouldBlock
    | chunk :: rest =>
      if chunk = [] then .attrError ⟨buffer, rest⟩
      else readGo size (buffer ++ chunk) rest (toRead - chunk.length)

/-- Source: `Connection.read(size)`: `to_read = size - len(self._buffer)`,
then the loop of `readGo`. -/
def Connection.read (c : Conn) (size : Nat) : ReadResult :=
  readGo size c.buffer c.chunks (size - c.buffer.length)

/-- The three messages `recv_msg` raises `ResponseError` with.  All three share
the single Python exception class `ResponseError`; they differ only in the
message text, mirrored here by the constructor and its arguments. -/
inductive ResponseError where
  | invalidSOP (sop1 sop2 : Nat)
  | invalidBodyLength (dlen : Nat)
  | invalidChecksum
deriving DecidableEq

/-- Outcome of `SpheroRaw.recv_msg`.  `ok` carries the returned tuple
`(sop2, b3, b4, b5, chk, content, body[-1])` plus the final connection state;
`err` is a raised `ResponseError`; `disconnected` is the `if not data` path that
logs, disconnects and returns `None`; `attrError` propagates the
`AttributeError` from `Connection.read`; `valueError` is the tuple-unpacking
failure on a header that is not exactly 5 bytes (unreachable, since a
successful `read(5)` always yields 5 bytes). -/
inductive RecvResult where
  | ok (sop2 b3 b4 b5 chk : Nat) (content : List Nat) (trailing : Nat) (conn : Conn)
  | err (e : ResponseError) (conn : Conn)
  | disconnected
  | attrError (conn : Conn)
  | wouldBlock
  | valueError
deriving DecidableEq

/-- Source: `SpheroRaw.recv_msg` with `make=None` (the `make` callback is
`None` in every call the claims touch; with `make=None` the content is returned
raw).  Reads a 5-byte header, validates the start bytes, computes the body
length (16-bit when `sop2 == 0xfe`), rejects lengths below 1, reads the body,
and checks the trailing checksum byte against
`gen_checksum(b3, b4, b5, *body[:-1])`. -/
def recv_msg (c : Conn) : RecvResult :=
  match Connection.read c 5 with
  | .attrError c1 => .attrError c1
  | .wouldBlock => .wouldBlock
  | .ok data c1 =>
    match data with
    | [] => .disconnected
    | [sop1, sop2, b3, b4, b5] =>
      if sop1 ≠ 0xff ∨ (sop2 &&& 0xfe) ≠ 0xfe then
        .err (.invalidSOP sop1 sop2) c1
      else
        let dlen := if sop2 = 0xfe then b5 ||| (b4 <<< 8) else b5
        if dlen < 1 then
          .err (.invalidBodyLength dlen) c1
        else
          match Connection.read c1 dlen with
          | .attrError c2 => .attrError c2
          | .wouldBlock => .wouldBlock
          | .ok body c2 =>
            match body.getLast? with
            | none => .disconnected
            | some last =>
              let content := body.dropLast
              let chk := gen_checksum ([b3, b4, b5] ++ content)
              if chk = last then .ok sop2 b3 b4 b5 chk content last c2
              else .err .invalidChecksum c2
    | _ => .valueError

/-- The framing acceptance condition as the specification words it: first start
byte exactly 0xFF and the two low-order flag bits of the second start byte both
set.  Stated for comparison against the check `recv_msg` actually performs. -/
def spec_framing_ok (sop1 sop2 : Nat) : Bool :=
  sop1 == 0xff && (sop2 &&& 0x03) == 0x03

/-- A Python value held in `Sphero.last_heading`: the tuple `(0, 0, 0)` it is
initialised with, or the int later stored by `roll`. -/
inductive HeadingVal where
  | tup3 (a b c : Int)
  | int (h : Int)
deriving DecidableEq

/-- The session state of class `Sphero` relevant to roll/off/stop: the
`last_heading` attribute and the sequence counter of `SpheroRaw`. -/
structure SpheroState where
  last_heading : HeadingVal
  seqc : BoundCounter
deriving DecidableEq

/-- A fresh `Sphero`: `self.last_heading = (0, 0, 0)` and a fresh counter. -/
def Sphero.fresh : SpheroState :=
  { last_heading := .tup3 0 0 0, seqc := BoundCounter.start }

/-- Outcome of a roll-family call.  `typeError` is the `TypeError` Python
raises inside `send_roll` when `heading % 360` is applied to a tuple; the
`last_heading` assignment in `roll` has already happened at that point, hence
the carried state. -/
inductive RollResult where
  | ok (frame : List Nat) (s : SpheroState)
  | typeError (s : SpheroState)
deriving DecidableEq

/-- Source: `Sphero.roll(speed, heading, state=1)`:
`self.last_heading = heading; return self.send_roll(speed, heading, state)`.
Generalised over the dynamic type of `heading`, since `off` passes
`self.last_heading` back in, which on a fresh session is a tuple. -/
def Sphero.rollVal (s : SpheroState) (speed : Nat) (heading : HeadingVal)
    (state : Nat) : RollResult :=
  let s := { s with last_heading := heading }
  match heading with
  | .int h =>
    let fr := send_roll s.seqc speed h state
    .ok fr.1 { s with seqc := fr.2 }
  | .tup3 _ _ _ => .typeError s

/-- `roll` as called from outside, with an integer heading. -/
def Sphero.roll (s : SpheroState) (speed : Nat) (heading : Int) (state : Nat) :
    RollResult :=
  Sphero.rollVal s speed (.int heading) state

/-- Source: `Sphero.off()`: `return self.roll(0, self.last_heading, 0)`. -/
def Sphero.off (s : SpheroState) : RollResult :=
  Sphero.rollVal s 0 s.last_heading 0

/-- Source: `Sphero.stop()`: `self.roll(0, 0, 0)`. -/
def Sphero.stop (s : SpheroState) : RollResult :=
  Sphero.roll s 0 0 0

/-- Observable trace of the channel-cleaning loop of `init_sphero`:
the `ping_clean` flag, the number of ping attempts made (each `send_ping`
sends a ping and tries to decode the reply), and the number of
`self._conn.flush()` drain calls. -/
structure CleanState where
  ping_clean : Bool
  pings : Nat
  flushes : Nat
deriving DecidableEq

/-- The `while retries > 0` loop of `init_sphero`.  `oracle i` tells whether
the i-th ping attempt (0-based) round-trips cleanly (`true`) or raises a
`ResponseError` (`false`), which the loop catches, logs and answers with one
`flush`.  Inside an iteration `retries` has already been decremented to `r`;
on a clean ping, `if retries > 1: retries = 1` allows exactly one further
confirmatory attempt. -/
def cleanLoop (oracle : Nat → Bool) (retries : Nat) (st : CleanState) :
    CleanState :=
  match retries with
  | 0 => st
  | r + 1 =>
    if oracle st.pings then
      let st := { st with ping_clean := true, pings := st.pings + 1 }
      if _h : 1 < r then cleanLoop oracle 1 st
      else cleanLoop oracle r st
    else
      cleanLoop oracle r
        { st with pings := st.pings + 1, flushes := st.flushes + 1 }
termination_by retries
decreasing_by all_goals omega

/-- Outcome of `init_sphero`: `connectError` is the
`RuntimeError('Could not establish connection')` raised when `connect` fails;
otherwise the session object is returned unconditionally, carrying the
channel-cleaning trace (`retries = 5`, counters starting at zero). -/
inductive InitResult where
  | connectError
  | ok (clean : CleanState)
deriving DecidableEq

/-- Source: `init_sphero(addr)`: connect, raise on failure, then run the
cleaning loop and `return s` regardless of whether the channel became clean. -/
def init_sphero (connected : Bool) (oracle : Nat → Bool) : InitResult :=
  if connected then .ok (cleanLoop oracle 5 ⟨false, 0, 0⟩)
  else .connectError

/-- The transport of end-to-end scenario C: the first ping reply has a
corrupted checksum, every later ping round-trips cleanly. -/
def scenarioC_oracle : Nat → Bool := fun i => i != 0

/-- When the pending buffer already holds at least `size` bytes, `read`
consumes them without touching the transport. -/
theorem Connection.read_of_buffered (buffer : List Nat) (chunks : List (List Nat))
    (size : Nat) (h : size ≤ buffer.length) :
    Connection.read ⟨buffer, chunks⟩ size
      = .ok (buffer.take size) ⟨buffer.drop size, chunks⟩ := by
  have h0 : size - buffer.length = 0 := Nat.sub_eq_zero_of_le h
  unfold Connection.read
  rw [h0]
  unfold readGo
  simp

/-- C6: for every sequence of byte values (each 0..255), `gen_checksum` returns
`255 - (sum of the bytes mod 256)`, an unsigned 8-bit value. -/
theorem gen_checksum_ones_complement (msg_bytes : List Nat)
    (_hbytes : ∀ b ∈ msg_bytes, b ≤ 255) :
    gen_checksum msg_bytes = 255 - msg_bytes.sum % 256 ∧
      gen_checksum msg_bytes ≤ 255 := by
  unfold gen_checksum
  omega

/-- Witness for `gen_checksum_ones_complement` at the bytes `[255, 0, 0]`. -/
theorem gen_checksum_ones_complement_witness :
    (∀ b ∈ ([255, 0, 0] : List Nat), b ≤ 255) ∧
      (gen_checksum [255, 0, 0] = 255 - ([255, 0, 0] : List Nat).sum % 256 ∧
        gen_checksum [255, 0, 0] ≤ 255) :=
  ⟨by decide, gen_checksum_ones_complement [255, 0, 0] (by decide)⟩

/-- C1 (counterexample): `set_rgb(255, 0, 0, save=False)` with default flags
does not produce the advertised bytes FF FC 02 20 00 05 FF 00 00 00 plus
checksum — the default `reset=True` sets the 0x02 flag in the second start
byte, so the frame's second byte is FE, not FC. -/
theorem set_rgb_scenarioA_not_fc :
    (send_set_rgb BoundCounter.start 255 0 0 false).1
      ≠ [0xff, 0xfc, 0x02, 0x20, 0x00, 0x05, 0xff, 0x00, 0x00, 0x00,
          gen_checksum [0x02, 0x20, 0x00, 0x05, 0xff, 0x00, 0x00, 0x00]] := by
  decide

/-- C1 (amended): encoding `set_rgb(255, 0, 0, save=False)` with default flags
produces exactly FF FE 02 20 00 05 FF 00 00 00 followed by one checksum byte
computed over 02 20 00 05 FF 00 00 00, for every sequence-counter state. -/
theorem set_rgb_scenarioA_wire_bytes (seqc : BoundCounter) :
    (send_set_rgb seqc 255 0 0 false).1
      = [0xff, 0xfe, 0x02, 0x20, 0x00, 0x05, 0xff, 0x00, 0x00, 0x00,
          gen_checksum [0x02, 0x20, 0x00, 0x05, 0xff, 0x00, 0x00, 0x00]] := rfl

/-- C7: for every outgoing frame, the data-length byte (index 5 of the frame)
equals payload length + 1, regardless of the acknowledgment and reset flags,
the explicit sequence argument, and the counter state. -/
theorem send_msg_dlen_field (seqc : BoundCounter) (did cid : Nat)
    (data : List Nat) (answer reset : Bool) (seq0 : Option Nat) :
    ((send_msg seqc did cid data answer reset seq0).1).get? 5
      = some (data.length + 1) := by
  cases answer <;> cases seq0 <;> cases reset <;>
    simp [send_msg, BoundCounter.next]

/-- C10: a fresh session holds the tuple `(0, 0, 0)` in `last_heading`, and
calling `off` before any `roll` raises `TypeError` (from `heading % 360` on a
tuple) instead of transmitting a roll frame. -/
theorem off_before_roll_type_error :
    Sphero.fresh.last_heading = HeadingVal.tup3 0 0 0 ∧
      Sphero.off Sphero.fresh = .typeError Sphero.fresh :=
  ⟨rfl, rfl⟩

/-- C4 (code at the failing input): reading 5 bytes from a transport that
delivers 2 bytes and then closes ends in the `AttributeError` raised by the
undefined `self.error` call — no partial result is returned, and the 2
delivered bytes are retained in the pending buffer carried by the error
state. -/
theorem read_closed_attribute_error :
    Connection.read ⟨[], [[1, 2], []]⟩ 5 = .attrError ⟨[1, 2], []⟩ := by
  decide

/-- C9: when connect succeeded, `init_sphero` returns the session for every
transport behaviour of the cleaning loop; in particular, when every ping
attempt fails, it still returns (degraded: not clean, 5 attempts, 5 drains). -/
theorem init_sphero_soft_failure :
    (∀ oracle : Nat → Bool, ∃ clean, init_sphero true oracle = .ok clean) ∧
      init_sphero true (fun _ => false) = .ok ⟨false, 5, 5⟩ := by
  constructor
  · exact fun oracle => ⟨_, rfl⟩
  · simp [init_sphero, cleanLoop]

/-- Evaluation of the cleaning loop on the scenario-C transport: the first
attempt fails (one flush), the second succeeds and resets the budget to one
confirmatory attempt, the third succeeds; three pings in total. -/
theorem scenarioC_eval :
    cleanLoop scenarioC_oracle 5 ⟨false, 0, 0⟩ = ⟨true, 3, 1⟩ := by
  simp [cleanLoop, scenarioC_oracle]

/-- C3 (counterexample): in scenario C the loop performs 3 ping attempts, not
the 2 the claim states. -/
theorem scenarioC_not_two_pings :
    (cleanLoop scenarioC_oracle 5 ⟨false, 0, 0⟩).pings ≠ 2 := by
  rw [scenarioC_eval]
  decide

/-- C3 (amended): with a corrupted first reply and valid replies thereafter,
channel-cleaning ends in the clean state after exactly 3 ping attempts (the
failed one, the successful one, and the one confirmatory attempt the loop
always allows) and exactly one drain call. -/
theorem scenarioC_clean_state :
    cleanLoop scenarioC_oracle 5 ⟨false, 0, 0⟩ = ⟨true, 3, 1⟩ :=
  scenarioC_eval

/-- C8: after `roll(100, 180)`, `off` produces a roll frame with heading 180
(big-endian bytes 00 B4) and speed byte 0 — not heading 0 — while `stop`
always produces a roll frame with heading bytes 00 00 and speed byte 0. -/
theorem off_preserves_heading_stop_zeroes (s : SpheroState) :
    (∃ f1 s1 s2,
        Sphero.roll s 100 180 1 = .ok f1 s1 ∧
          Sphero.off s1
            = .ok [0xff, 0xfe, 0x02, 0x30, 0x00, 0x05, 0x00, 0x00, 0xb4, 0x00,
                gen_checksum [0x02, 0x30, 0x00, 0x05, 0x00, 0x00, 0xb4, 0x00]]
              s2) ∧
      ∀ t : SpheroState, ∃ t1,
        Sphero.stop t
          = .ok [0xff, 0xfe, 0x02, 0x30, 0x00, 0x05, 0x00, 0x00, 0x00, 0x00,
              gen_checksum [0x02, 0x30, 0x00, 0x05, 0x00, 0x00, 0x00, 0x00]]
            t1 := by
  constructor
  · exact ⟨_, _, _, rfl, rfl⟩
  · exact fun t => ⟨_, rfl⟩

/-- C5: when framing passes and the declared body arrives in full, a trailing
byte that differs from the checksum recomputed over header bytes 3..5 plus the
content fails with the invalid-checksum error, an error value distinct from
invalid-SOP and invalid-body-length. -/
theorem recv_msg_checksum_mismatch (b3 b4 b5 : Nat) (content : List Nat)
    (trailing : Nat) (chunks : List (List Nat))
    (hlen : b5 = content.length + 1)
    (hchk : gen_checksum ([b3, b4, b5] ++ content) ≠ trailing) :
    recv_msg ⟨0xff :: 0xff :: b3 :: b4 :: b5 :: (content ++ [trailing]), chunks⟩
        = .err .invalidChecksum ⟨[], chunks⟩ ∧
      (∀ s1 s2, ResponseError.invalidChecksum ≠ .invalidSOP s1 s2) ∧
      (∀ d, ResponseError.invalidChecksum ≠ .invalidBodyLength d) := by
  refine ⟨?_, fun s1 s2 h => ResponseError.noConfusion h,
    fun d h => ResponseError.noConfusion h⟩
  have h5 : (5 : Nat) ≤
      (0xff :: 0xff :: b3 :: b4 :: b5 :: (content ++ [trailing])).length := by
    simp only [List.length_cons]
    omega
  have hread1 := Connection.read_of_buffered
    (0xff :: 0xff :: b3 :: b4 :: b5 :: (content ++ [trailing])) chunks 5 h5
  have hblen : b5 = (content ++ [trailing]).length := by
    simp [hlen]
  have hread2 := Connection.read_of_buffered (content ++ [trailing]) chunks b5
    (le_of_eq hblen)
  unfold recv_msg
  rw [hread1]
  simp only [List.take_succ_cons, List.take_zero, List.drop_succ_cons,
    List.drop_zero]
  rw [if_neg (show ¬((255 : Nat) ≠ 255 ∨ (255 : Nat) &&& 254 ≠ 254) from
    by decide)]
  rw [if_neg (show (255 : Nat) ≠ 254 from by decide)]
  rw [if_neg (show ¬(b5 < 1) from by omega)]
  rw [hread2]
  rw [List.take_of_length_le (le_of_eq hblen.symm),
    List.drop_eq_nil_of_le (le_of_eq hblen.symm)]
  simp only [List.getLast?_concat, List.dropLast_concat]
  rw [if_neg hchk]

/-- Witness for `recv_msg_checksum_mismatch`: header FF FF 00 00 01, empty
content, trailing byte 0 where the recomputed checksum is 254. -/
theorem recv_msg_checksum_mismatch_witness :
    (1 : Nat) = ([] : List Nat).length + 1 ∧
      gen_checksum ([0, 0, 1] ++ []) ≠ 0 ∧
      recv_msg ⟨0xff :: 0xff :: 0 :: 0 :: 1 :: ([] ++ [0]), []⟩
        = .err .invalidChecksum ⟨[], []⟩ :=
  ⟨rfl, by decide, (recv_msg_checksum_mismatch 0 0 1 [] 0 [] rfl (by decide)).1⟩

/-- C2 (counterexample): the header FF 03 00 00 01 has both low-order flag
bits of its second start byte set, so the claim says it passes the framing
check, yet `recv_msg` fails with the invalid-SOP framing error, because the
code actually requires all seven high-order bits of the second byte
(`sop2 & 0xfe == 0xfe`). -/
theorem framing_claim_false_at_ff03 :
    spec_framing_ok 0xff 0x03 = true ∧
      recv_msg ⟨[0xff, 0x03, 0x00, 0x00, 0x01], []⟩
        = .err (.invalidSOP 0xff 0x03) ⟨[], []⟩ := by
  decide

/-- C2 (amended): for every delivered 5-byte header, decoding fails with the
invalid-SOP framing error iff the first start byte is not 0xFF or the seven
high-order bits of the second start byte (mask 0xFE) are not all set; the
low-order flag bit of the second byte is ignored by the framing check. -/
theorem recv_msg_framing_iff (sop1 sop2 b3 b4 b5 : Nat) (rest : List Nat)
    (chunks : List (List Nat)) :
    (∃ c, recv_msg ⟨sop1 :: sop2 :: b3 :: b4 :: b5 :: rest, chunks⟩
        = .err (.invalidSOP sop1 sop2) c) ↔
      ¬ (sop1 = 0xff ∧ sop2 &&& 0xfe = 0xfe) := by
  have h5 : (5 : Nat) ≤ (sop1 :: sop2 :: b3 :: b4 :: b5 :: rest).length := by
    simp only [List.length_cons]
    omega
  have hread1 := Connection.read_of_buffered
    (sop1 :: sop2 :: b3 :: b4 :: b5 :: rest) chunks 5 h5
  unfold recv_msg
  rw [hread1]
  simp only [List.take_succ_cons, List.take_zero, List.drop_succ_cons,
    List.drop_zero]
  by_cases hf : sop1 = 0xff ∧ sop2 &&& 0xfe = 0xfe
  · rw [if_neg (by simp [hf.1, hf.2])]
    refine iff_of_false ?_ (not_not_intro hf)
    rintro ⟨c, hc⟩
    repeat' (first | split at hc | simp at hc)
  · rw [if_pos (by tauto)]
    exact ⟨fun _ => hf, fun _ => ⟨⟨rest, chunks⟩, rfl⟩⟩
